import Mathlib

/-!
Shallow embedding of the nz-passport-photos client core: the data model of
src/types.ts, the crop/encode pipeline of src/utils/imageUtils.ts, the
compliance-service fallback of the gemini service, and the workflow state
machine of src/App.tsx (the React component state plus its event handlers),
with theorems checking the specification's claims about them.

JavaScript numbers are modelled as rationals, with explicit constructors for
the non-number values (undefined, null, NaN) that the destructuring bug in
handleApplyCrop makes reachable; machine floating point plays no role in the
properties checked here (all thresholds and sizes are exact).
-/

namespace NZP

/-- A JavaScript runtime value as it flows through handleApplyCrop:
a number (modelled exactly as a rational), a string, undefined, null, or NaN.
Only the coercions the embedded code can actually exercise are modelled. -/
inductive JsVal where
  | undefV : JsVal
  | jsNull : JsVal
  | nan : JsVal
  | num : ℚ → JsVal
  | str : String → JsVal
deriving DecidableEq

/-- JavaScript truthiness of a value, as used by the conditional-render
expressions in App.tsx (step === X && croppedImage && ...). -/
def truthy : JsVal → Bool
  | .num q => decide (q ≠ 0)
  | .str s => decide (s ≠ "")
  | _ => false

/-- JavaScript x >= c for a numeric literal c: undefined and NaN compare
false; null coerces to 0. (String-to-number coercion never arises in the
embedded code paths.) -/
def jsGe (x : JsVal) (c : ℚ) : Bool :=
  match x with
  | .num a => decide (c ≤ a)
  | .jsNull => decide (c ≤ 0)
  | _ => false

/-- JavaScript x <= c for a numeric literal c, same conventions as jsGe. -/
def jsLe (x : JsVal) (c : ℚ) : Bool :=
  match x with
  | .num a => decide (a ≤ c)
  | .jsNull => decide ((0 : ℚ) ≤ c)
  | _ => false

/-- JavaScript x / c for a nonzero numeric literal c (the code divides only
by 1024): undefined / c is NaN, null coerces to 0, NaN propagates. -/
def jsDiv (x : JsVal) (c : ℚ) : JsVal :=
  match x with
  | .num a => .num (a / c)
  | .jsNull => .num (0 / c)
  | _ => .nan

/-! ## Data model (src/types.ts) -/

/-- Area from src/types.ts: a crop rectangle in source-image pixels. -/
structure Area where
  x : ℚ
  y : ℚ
  width : ℚ
  height : ℚ
deriving DecidableEq

/-- The five per-category verdict strings of ComplianceResult.checks. -/
structure ComplianceChecks where
  background : String
  headSize : String
  expression : String
  lighting : String
  sharpness : String
deriving DecidableEq

/-- ComplianceResult from src/types.ts. -/
structure ComplianceResult where
  passed : Bool
  score : ℚ
  checks : ComplianceChecks
  feedback : String
deriving DecidableEq

/-- TechnicalResult from src/types.ts. fileSizeKb, width and height are kept
as JsVal because handleApplyCrop can (and, by the destructuring bug, does)
store non-number values in them. -/
structure TechnicalResult where
  fileSizeKb : JsVal
  width : JsVal
  height : JsVal
  format : String
  sizeValid : Bool
  dimensionsValid : Bool
  formatValid : Bool
deriving DecidableEq

/-- PaymentResult from src/types.ts. -/
structure PaymentResult where
  verified : Bool
  orderID : Option String
  error : Option String
deriving DecidableEq

/-- AppStep from src/types.ts: the five wizard steps. -/
inductive AppStep where
  | UPLOAD
  | CROP
  | VALIDATE
  | PAYMENT
  | DOWNLOAD
deriving DecidableEq

/-! ## Crop/transform pipeline (src/utils/imageUtils.ts) -/

/-- TARGET_WIDTH from src/utils/imageUtils.ts. -/
def TARGET_WIDTH : ℚ := 1500

/-- TARGET_HEIGHT from src/utils/imageUtils.ts. -/
def TARGET_HEIGHT : ℚ := 2000

/-- The affine transform drawCroppedImage installs before ctx.drawImage:
independent x/y scales, a rotation in degrees, and the crop-centre
translation. Recorded as data; rasterisation itself happens in the browser. -/
structure AffineParams where
  scaleX : ℚ
  scaleY : ℚ
  rotationDeg : ℚ
  centerX : ℚ
  centerY : ℚ
deriving DecidableEq

/-- A drawing operation performed on the canvas. -/
inductive DrawOp where
  | drawImage (src : String) (t : AffineParams)
  | watermark
deriving DecidableEq

/-- The canvas: its pixel dimensions and the operations drawn onto it. -/
structure Canvas where
  width : ℚ
  height : ℚ
  ops : List DrawOp
deriving DecidableEq

/-- drawCroppedImage from src/utils/imageUtils.ts: translate to the canvas
centre, rotate by rotation degrees, scale by TARGET/crop per axis, translate
back by the crop centre, then drawImage. -/
def drawCroppedImage (cv : Canvas) (src : String) (pixelCrop : Area)
    (rotation : ℚ) : Canvas :=
  { cv with ops := cv.ops ++ [DrawOp.drawImage src
      { scaleX := TARGET_WIDTH / pixelCrop.width
      , scaleY := TARGET_HEIGHT / pixelCrop.height
      , rotationDeg := rotation
      , centerX := pixelCrop.x + pixelCrop.width / 2
      , centerY := pixelCrop.y + pixelCrop.height / 2 }] }

/-- addWatermark from src/utils/imageUtils.ts: draws the two PREVIEW overlay
texts onto the canvas. -/
def addWatermark (cv : Canvas) : Canvas :=
  { cv with ops := cv.ops ++ [DrawOp.watermark] }

/-- The browser encoder behind canvas.toBlob / FileReader.readAsDataURL:
maps canvas content and a JPEG quality to a blob byte size and a data URL.
Opaque to the repository, so taken as a parameter. -/
structure Encoder where
  blobSize : Canvas → ℚ → ℕ
  toDataUrl : Canvas → ℚ → String

/-- The object getCroppedImg (src/utils/imageUtils.ts) resolves with: note
the field names previewUrl / fullDataUrl / fullSizeBytes, not the dataUrl /
size that src/App.tsx destructures. -/
structure GetCroppedImgResult where
  previewUrl : String
  fullDataUrl : String
  fullSizeBytes : ℕ
  width : ℚ
  height : ℚ
deriving DecidableEq

/-- getCroppedImg from src/utils/imageUtils.ts: set the canvas to the fixed
1500 x 2000 target, draw the transformed crop, encode clean at quality 0.95,
overlay the watermark, encode the preview at quality 0.7, and return the
record with the target dimensions. -/
def getCroppedImg (enc : Encoder) (imageSrc : String) (pixelCrop : Area)
    (rotation : ℚ) : GetCroppedImgResult :=
  let canvas0 : Canvas := { width := TARGET_WIDTH, height := TARGET_HEIGHT, ops := [] }
  let canvas1 := drawCroppedImage canvas0 imageSrc pixelCrop rotation
  let fullSize := enc.blobSize canvas1 (95 / 100)
  let fullUrl := enc.toDataUrl canvas1 (95 / 100)
  let canvas2 := addWatermark canvas1
  let prevUrl := enc.toDataUrl canvas2 (7 / 10)
  { previewUrl := prevUrl
  , fullDataUrl := fullUrl
  , fullSizeBytes := fullSize
  , width := TARGET_WIDTH
  , height := TARGET_HEIGHT }

/-- JavaScript property lookup on the object getCroppedImg returns, as
destructuring performs it: a present field yields its value, any other key
yields undefined. -/
def croppedImgField (r : GetCroppedImgResult) (k : String) : JsVal :=
  if k = "previewUrl" then .str r.previewUrl
  else if k = "fullDataUrl" then .str r.fullDataUrl
  else if k = "fullSizeBytes" then .num r.fullSizeBytes
  else if k = "width" then .num r.width
  else if k = "height" then .num r.height
  else .undefV

/-! ## Technical validation (src/App.tsx, handleApplyCrop lines 127-136) -/

/-- The TechnicalResult handleApplyCrop builds from the destructured size,
width and height: fileSizeKb = size / 1024, sizeValid tests 250 <= kb <= 5120,
dimensionsValid tests 900 <= width <= 4500 and 1200 <= height <= 6000,
format is hard-coded image/jpeg and formatValid hard-coded true. -/
def mkTechResult (size width height : JsVal) : TechnicalResult :=
  let fileSizeKb := jsDiv size 1024
  { fileSizeKb := fileSizeKb
  , width := width
  , height := height
  , format := "image/jpeg"
  , sizeValid := jsGe fileSizeKb 250 && jsLe fileSizeKb 5120
  , dimensionsValid := jsGe width 900 && jsLe width 4500 &&
      jsGe height 1200 && jsLe height 6000
  , formatValid := true }

/-! ## Compliance service fallback (geminiService checkPassportCompliance) -/

/-- The outcome of the fetch to /api/check-compliance as the service sees it:
a parsed 2xx body, a non-2xx response, or a thrown/network error. -/
inductive FetchOutcome (α : Type) where
  | ok (value : α)
  | httpError (status : ℕ) (body : Option String)
  | networkError (message : String)
deriving DecidableEq

/-- The ComplianceResult the catch branch of checkPassportCompliance
fabricates on any failure. -/
def errorComplianceResult : ComplianceResult :=
  { passed := false
  , score := 0
  , checks :=
      { background := "Error"
      , headSize := "Error"
      , expression := "Error"
      , lighting := "Error"
      , sharpness := "Error" }
  , feedback := "Failed to connect to AI service for validation. Please try again." }

/-- checkPassportCompliance from the gemini service: a 2xx response is
returned as parsed; a non-2xx response throws inside the try (the thrown
error carries the body) and, like a network error, is caught and converted
to errorComplianceResult. The function is total: it never throws to the
caller. -/
def checkPassportCompliance (response : FetchOutcome ComplianceResult) :
    ComplianceResult :=
  match response with
  | .ok c => c
  | .httpError _ _ => errorComplianceResult
  | .networkError _ => errorComplianceResult

/-! ## Workflow state machine (src/App.tsx, the App component)

The component's useState hooks become one record; each user interaction or
asynchronous continuation becomes an event of a step function. Asynchronous
code is split at its await points: apply-crop marks a render as pending,
the resolution of getCroppedImg is its own event (running the synchronous
code up to the compliance dispatch), and the resolution of the compliance
fetch is another. handleApplyCrop installs no cancellation flag, so the
pending flags deliberately survive reset, exactly as the in-flight promises
survive it in the source. The cancelled flag of the Payment useEffect is
modelled by guarding the payment continuations on step = PAYMENT: the flag
is set by the effect cleanup exactly when the step leaves PAYMENT. -/

/-- The React state of the App component (src/App.tsx lines 12-26), plus the
two pending flags that stand for the in-flight promises of handleApplyCrop.
crop is the pan position {x, y}; croppedAreaPixels the pending crop
rectangle reported by the cropper. -/
structure WState where
  step : AppStep
  image : Option String
  croppedImage : JsVal
  cropX : ℚ
  cropY : ℚ
  zoom : ℚ
  rotation : ℚ
  croppedAreaPixels : Option Area
  loading : Bool
  compliance : Option ComplianceResult
  techResult : Option TechnicalResult
  paymentVerified : Bool
  paypalReady : Bool
  paymentError : Option String
  paymentLoading : Bool
  paypalRendered : Bool
  pendingRender : Bool
  pendingCompliance : Bool
deriving DecidableEq

/-- The initial component state: the useState initialisers of
src/App.tsx lines 12-26. -/
def initState : WState :=
  { step := .UPLOAD
  , image := none
  , croppedImage := .jsNull
  , cropX := 0
  , cropY := 0
  , zoom := 1
  , rotation := 0
  , croppedAreaPixels := none
  , loading := false
  , compliance := none
  , techResult := none
  , paymentVerified := false
  , paypalReady := false
  , paymentError := none
  , paymentLoading := false
  , paypalRendered := false
  , pendingRender := false
  , pendingCompliance := false }

/-- The events driving the machine: user interactions on the rendered
screens and the resolutions of the asynchronous operations. -/
inductive Event where
  | fileSelected (img : String)
  | cropMove (x y : ℚ)
  | zoomSet (z : ℚ)
  | rotateSet (d : ℚ)
  | cropComplete (a : Area)
  | applyCrop
  | cropRendered (r : GetCroppedImgResult)
  | cropRenderFailed
  | complianceArrived (c : ComplianceResult)
  | recrop
  | accept
  | paypalLoaded
  | paypalLoadFailed
  | paymentResult (r : PaymentResult)
  | paymentThrew (message : Option String)
  | startOver
deriving DecidableEq

/-- Whether the Validate screen renders (src/App.tsx line 319):
step === VALIDATE && croppedImage && techResult && compliance. -/
def validateRenders (s : WState) : Bool :=
  decide (s.step = .VALIDATE) && truthy s.croppedImage &&
    s.techResult.isSome && s.compliance.isSome

/-- compliance.passed read off the session (false when no result is stored,
matching the short-circuit of the render conditions). -/
def compliancePassed (s : WState) : Bool :=
  match s.compliance with
  | some c => c.passed
  | none => false

/-- techResult.sizeValid read off the session. -/
def techSizeValid (s : WState) : Bool :=
  match s.techResult with
  | some t => t.sizeValid
  | none => false

/-- Whether the Accept Photo button renders (src/App.tsx line 402): the
Validate screen is up and compliance.passed && techResult.sizeValid. -/
def acceptRenders (s : WState) : Bool :=
  validateRenders s && compliancePassed s && techSizeValid s

/-- Whether the Download screen renders (src/App.tsx line 487):
step === DOWNLOAD && croppedImage && paymentVerified. -/
def downloadRenders (s : WState) : Bool :=
  decide (s.step = .DOWNLOAD) && truthy s.croppedImage && s.paymentVerified

/-- The synchronous code of handleApplyCrop after getCroppedImg resolves
(src/App.tsx lines 124-136): destructure dataUrl, size, width, height from
the result object, store croppedImage, compute and store the
TechnicalResult, then dispatch the compliance request. -/
def applyCropResolved (s : WState) (r : GetCroppedImgResult) : WState :=
  let dataUrl := croppedImgField r "dataUrl"
  let size := croppedImgField r "size"
  let width := croppedImgField r "width"
  let height := croppedImgField r "height"
  { s with
      croppedImage := dataUrl,
      techResult := some (mkTechResult size width height),
      pendingRender := false,
      pendingCompliance := true }

/-- reset from src/App.tsx lines 149-162: note that it does not touch crop
(the pan position), croppedAreaPixels, loading, or the in-flight promises. -/
def reset (s : WState) : WState :=
  { s with
      image := none,
      croppedImage := .jsNull,
      rotation := 0,
      zoom := 1,
      step := .UPLOAD,
      compliance := none,
      techResult := none,
      paymentVerified := false,
      paypalReady := false,
      paymentError := none,
      paymentLoading := false,
      paypalRendered := false }

/-- One step of the machine. Guards mirror where each control is rendered
(an event whose screen or flag is absent leaves the state unchanged), and
each branch performs exactly the setState calls of the corresponding
handler in src/App.tsx. -/
def stepFn (s : WState) (e : Event) : WState :=
  match e with
  | .fileSelected img =>
      if s.step = .UPLOAD then { s with image := some img, step := .CROP } else s
  | .cropMove x y =>
      if s.step = .CROP then { s with cropX := x, cropY := y } else s
  | .zoomSet z =>
      if s.step = .CROP then { s with zoom := z } else s
  | .rotateSet d =>
      if s.step = .CROP then { s with rotation := d } else s
  | .cropComplete a =>
      if s.step = .CROP then { s with croppedAreaPixels := some a } else s
  | .applyCrop =>
      if s.step = .CROP ∧ s.loading = false ∧ s.image.isSome ∧
          s.croppedAreaPixels.isSome
      then { s with loading := true, pendingRender := true } else s
  | .cropRendered r =>
      if s.pendingRender then applyCropResolved s r else s
  | .cropRenderFailed =>
      if s.pendingRender then { s with pendingRender := false, loading := false }
      else s
  | .complianceArrived c =>
      if s.pendingCompliance
      then { s with
          compliance := some c, step := .VALIDATE,
          pendingCompliance := false, loading := false }
      else s
  | .recrop =>
      if validateRenders s then { s with step := .CROP } else s
  | .accept =>
      if acceptRenders s then { s with step := .PAYMENT } else s
  | .paypalLoaded =>
      if s.step = .PAYMENT
      then { s with paypalReady := true, paypalRendered := true } else s
  | .paypalLoadFailed =>
      if s.step = .PAYMENT
      then { s with paymentError := some "Failed to load payment system. Please refresh." }
      else s
  | .paymentResult r =>
      if s.step = .PAYMENT then
        if r.verified
        then { s with
            paymentVerified := true, step := .DOWNLOAD,
            paymentError := none, paymentLoading := false }
        else { s with
            paymentError := some (r.error.getD "Payment verification failed."),
            paymentLoading := false }
      else s
  | .paymentThrew m =>
      if s.step = .PAYMENT
      then { s with
          paymentError := some (m.getD "Payment failed. Please try again."),
          paymentLoading := false }
      else s
  | .startOver => reset s

/-- A run of the machine over a list of events. -/
def run (s : WState) (es : List Event) : WState :=
  es.foldl stepFn s

/-! ## The invariant forced by the destructuring bug

src/App.tsx destructures dataUrl and size from the object getCroppedImg
resolves with, but src/utils/imageUtils.ts returns previewUrl, fullDataUrl
and fullSizeBytes; both destructured values are therefore undefined in every
run. -/

/-- The invariant every reachable session satisfies because of the
destructuring mismatch: croppedImage is null or undefined, no stored
TechnicalResult has sizeValid, and the machine never leaves the
Upload/Crop/Validate fragment towards Payment or Download. -/
def BugInv (s : WState) : Prop :=
  (s.croppedImage = JsVal.jsNull ∨ s.croppedImage = JsVal.undefV) ∧
  techSizeValid s = false ∧
  s.step ≠ AppStep.PAYMENT ∧ s.step ≠ AppStep.DOWNLOAD ∧
  s.paymentVerified = false

/-! ## Concrete sessions, results and traces used as witnesses and
counterexamples -/

/-- Five passing category verdicts. -/
def passChecks : ComplianceChecks :=
  { background := "Pass", headSize := "Pass", expression := "Pass",
    lighting := "Pass", sharpness := "Pass" }

/-- A passing compliance verdict. -/
def passCompliance : ComplianceResult :=
  { passed := true, score := 92, checks := passChecks, feedback := "Meets requirements" }

/-- A failing compliance verdict. -/
def failCompliance : ComplianceResult :=
  { passed := false, score := 40, checks := passChecks, feedback := "Background not plain" }

/-- A TechnicalResult with every verdict passing. -/
def validTech : TechnicalResult :=
  { fileSizeKb := .num 293, width := .num 1500, height := .num 2000,
    format := "image/jpeg", sizeValid := true, dimensionsValid := true, formatValid := true }

/-- A TechnicalResult whose sizeValid failed. -/
def staleTech : TechnicalResult :=
  { fileSizeKb := .num 100, width := .num 1500, height := .num 2000,
    format := "image/jpeg", sizeValid := false, dimensionsValid := true, formatValid := true }

/-- A session on the Validate screen with both verdicts passing, so the
Accept Photo button renders. -/
def acceptReadyState : WState :=
  { initState with
      step := .VALIDATE, croppedImage := .str "x",
      techResult := some validTech, compliance := some passCompliance }

/-- A session on the Validate screen holding a failed verdict pair. -/
def staleVerdictState : WState :=
  { initState with
      step := .VALIDATE, croppedImage := .str "x",
      techResult := some staleTech, compliance := some failCompliance }

/-- A session sitting in the Payment step. -/
def payState : WState := { initState with step := .PAYMENT }

/-- A payment verification response with verified=false and the error
string of the declined-payment scenario. -/
def declinedResult : PaymentResult :=
  { verified := false, orderID := some "ORDER123", error := some "Status: DECLINED" }

/-- A concrete object resolved by getCroppedImg. -/
def renderedResult : GetCroppedImgResult :=
  { previewUrl := "p", fullDataUrl := "f", fullSizeBytes := 400000,
    width := 1500, height := 2000 }

/-- A trace that applies a crop and presses start-over while the dispatched
compliance request is still in flight. -/
def resetDuringComplianceTrace : List Event :=
  [Event.fileSelected "img", Event.cropComplete ⟨10, 20, 300, 400⟩,
   Event.applyCrop, Event.cropRendered renderedResult, Event.startOver]

/-- The same trace continued by the late arrival of the compliance result
after the reset. -/
def lateComplianceTrace : List Event :=
  resetDuringComplianceTrace ++ [Event.complianceArrived failCompliance]

/-- A trace that selects a crop position and rectangle and then presses
start-over. -/
def cropLeakTrace : List Event :=
  [Event.fileSelected "photo", Event.cropMove 5 7,
   Event.cropComplete ⟨10, 20, 300, 400⟩, Event.startOver]

/-- A concrete stand-in for the browser JPEG encoder. -/
def idEncoder : Encoder :=
  { blobSize := fun _ _ => 400000, toDataUrl := fun _ _ => "data" }

/-! ## Helper lemmas -/

/-- The object returned by getCroppedImg has no dataUrl field, so the
destructured dataUrl is undefined. -/
theorem croppedImgField_dataUrl (r : GetCroppedImgResult) :
    croppedImgField r "dataUrl" = JsVal.undefV := rfl

/-- The object returned by getCroppedImg has no size field, so the
destructured size is undefined. -/
theorem croppedImgField_size (r : GetCroppedImgResult) :
    croppedImgField r "size" = JsVal.undefV := rfl

/-- With an undefined size, fileSizeKb is NaN and the range check is false. -/
theorem mkTechResult_undef_sizeValid (w h : JsVal) :
    (mkTechResult JsVal.undefV w h).sizeValid = false := rfl

/-- A rendered Validate screen implies the session step is VALIDATE. -/
theorem validateRenders_step_eq (s : WState) (h : validateRenders s = true) :
    s.step = AppStep.VALIDATE := by
  rw [validateRenders] at h
  simp only [Bool.and_eq_true, decide_eq_true_eq] at h
  exact h.1.1.1

/-- The components of the Accept Photo render condition. -/
theorem acceptRenders_parts (s : WState) (h : acceptRenders s = true) :
    s.step = AppStep.VALIDATE ∧ compliancePassed s = true ∧ techSizeValid s = true := by
  rw [acceptRenders] at h
  simp only [Bool.and_eq_true] at h
  exact ⟨validateRenders_step_eq s h.1.1, h.1.2, h.2⟩

/-- Resolving a crop always stores an undefined croppedImage and a
TechnicalResult whose sizeValid is false. -/
theorem applyCropResolved_props (s : WState) (r : GetCroppedImgResult) :
    (applyCropResolved s r).croppedImage = JsVal.undefV ∧
    techSizeValid (applyCropResolved s r) = false := by
  have h2 : techSizeValid (applyCropResolved s r) =
      (mkTechResult (croppedImgField r "size") (croppedImgField r "width")
        (croppedImgField r "height")).sizeValid := rfl
  rw [h2, croppedImgField_size]
  exact ⟨croppedImgField_dataUrl r, mkTechResult_undef_sizeValid _ _⟩

/-- The initial session satisfies the bug invariant. -/
theorem bugInv_init : BugInv initState := by
  refine ⟨Or.inl rfl, rfl, ?_, ?_, rfl⟩ <;> simp [initState]

/-- Every event of the machine preserves the bug invariant. -/
theorem bugInv_step (s : WState) (e : Event) (h : BugInv s) : BugInv (stepFn s e) := by
  obtain ⟨hci, hts, hsp, hsd, hpv⟩ := h
  cases e with
  | fileSelected img =>
      rw [stepFn]; split
      · exact ⟨hci, hts, by simp, by simp, hpv⟩
      · exact ⟨hci, hts, hsp, hsd, hpv⟩
  | cropMove x y =>
      rw [stepFn]; split
      · exact ⟨hci, hts, hsp, hsd, hpv⟩
      · exact ⟨hci, hts, hsp, hsd, hpv⟩
  | zoomSet z =>
      rw [stepFn]; split
      · exact ⟨hci, hts, hsp, hsd, hpv⟩
      · exact ⟨hci, hts, hsp, hsd, hpv⟩
  | rotateSet d =>
      rw [stepFn]; split
      · exact ⟨hci, hts, hsp, hsd, hpv⟩
      · exact ⟨hci, hts, hsp, hsd, hpv⟩
  | cropComplete a =>
      rw [stepFn]; split
      · exact ⟨hci, hts, hsp, hsd, hpv⟩
      · exact ⟨hci, hts, hsp, hsd, hpv⟩
  | applyCrop =>
      rw [stepFn]; split
      · exact ⟨hci, hts, hsp, hsd, hpv⟩
      · exact ⟨hci, hts, hsp, hsd, hpv⟩
  | cropRendered r =>
      rw [stepFn]; split
      · obtain ⟨h1, h2⟩ := applyCropResolved_props s r
        exact ⟨Or.inr h1, h2, hsp, hsd, hpv⟩
      · exact ⟨hci, hts, hsp, hsd, hpv⟩
  | cropRenderFailed =>
      rw [stepFn]; split
      · exact ⟨hci, hts, hsp, hsd, hpv⟩
      · exact ⟨hci, hts, hsp, hsd, hpv⟩
  | complianceArrived c =>
      rw [stepFn]; split
      · exact ⟨hci, hts, by simp, by simp, hpv⟩
      · exact ⟨hci, hts, hsp, hsd, hpv⟩
  | recrop =>
      rw [stepFn]; split
      · exact ⟨hci, hts, by simp, by simp, hpv⟩
      · exact ⟨hci, hts, hsp, hsd, hpv⟩
  | accept =>
      have hg : acceptRenders s = false := by
        rw [acceptRenders, hts, Bool.and_false]
      rw [stepFn]
      simp only [hg, Bool.false_eq_true, if_false]
      exact ⟨hci, hts, hsp, hsd, hpv⟩
  | paypalLoaded =>
      rw [stepFn, if_neg hsp]
      exact ⟨hci, hts, hsp, hsd, hpv⟩
  | paypalLoadFailed =>
      rw [stepFn, if_neg hsp]
      exact ⟨hci, hts, hsp, hsd, hpv⟩
  | paymentResult r =>
      rw [stepFn, if_neg hsp]
      exact ⟨hci, hts, hsp, hsd, hpv⟩
  | paymentThrew m =>
      rw [stepFn, if_neg hsp]
      exact ⟨hci, hts, hsp, hsd, hpv⟩
  | startOver =>
      exact ⟨Or.inl rfl, rfl, by simp [stepFn, reset], by simp [stepFn, reset], rfl⟩

/-- Every reachable session satisfies the bug invariant. -/
theorem bugInv_run (es : List Event) : BugInv (run initState es) := by
  have key : ∀ (l : List Event) (s : WState), BugInv s → BugInv (run s l) := by
    intro l
    induction l with
    | nil => intro s hs; exact hs
    | cons e t ih =>
        intro s hs
        exact ih (stepFn s e) (bugInv_step s e hs)
  exact key es initState bugInv_init

/-- null and undefined are both falsy. -/
theorem truthy_false_of_nullish (v : JsVal)
    (h : v = JsVal.jsNull ∨ v = JsVal.undefV) : truthy v = false := by
  rcases h with h | h <;> rw [h] <;> rfl

/-- Under the bug invariant neither the Validate screen, nor the Accept
button, nor the Download screen renders. -/
theorem renders_false_of_bugInv (s : WState) (h : BugInv s) :
    validateRenders s = false ∧ acceptRenders s = false ∧ downloadRenders s = false := by
  obtain ⟨hci, hts, _, _, _⟩ := h
  have htr := truthy_false_of_nullish _ hci
  refine ⟨?_, ?_, ?_⟩
  · rw [validateRenders, htr]; simp
  · rw [acceptRenders, hts, Bool.and_false]
  · rw [downloadRenders, htr]; simp

/-! ## The claims -/

/-- C1: the session step never becomes PAYMENT unless the transition is the
accept event fired from the VALIDATE step with the stored
TechnicalResult.sizeValid and ComplianceResult.passed both true — the guard
of the Accept Photo button (src/App.tsx line 402), the only place that sets
the step to PAYMENT. -/
theorem paymentEntryGuarded (s : WState) (e : Event)
    (hpre : s.step ≠ AppStep.PAYMENT)
    (hpost : (stepFn s e).step = AppStep.PAYMENT) :
    e = Event.accept ∧ s.step = AppStep.VALIDATE ∧
      techSizeValid s = true ∧ compliancePassed s = true := by
  cases e with
  | accept =>
      rw [stepFn] at hpost
      split at hpost
      · rename_i hg
        obtain ⟨h1, h2, h3⟩ := acceptRenders_parts s hg
        exact ⟨rfl, h1, h3, h2⟩
      · exact absurd hpost hpre
  | fileSelected img =>
      rw [stepFn] at hpost
      split at hpost
      · simp at hpost
      · exact absurd hpost hpre
  | cropMove x y =>
      rw [stepFn] at hpost
      split at hpost
      · exact absurd hpost hpre
      · exact absurd hpost hpre
  | zoomSet z =>
      rw [stepFn] at hpost
      split at hpost
      · exact absurd hpost hpre
      · exact absurd hpost hpre
  | rotateSet d =>
      rw [stepFn] at hpost
      split at hpost
      · exact absurd hpost hpre
      · exact absurd hpost hpre
  | cropComplete a =>
      rw [stepFn] at hpost
      split at hpost
      · exact absurd hpost hpre
      · exact absurd hpost hpre
  | applyCrop =>
      rw [stepFn] at hpost
      split at hpost
      · exact absurd hpost hpre
      · exact absurd hpost hpre
  | cropRendered r =>
      rw [stepFn] at hpost
      split at hpost
      · exact absurd hpost hpre
      · exact absurd hpost hpre
  | cropRenderFailed =>
      rw [stepFn] at hpost
      split at hpost
      · exact absurd hpost hpre
      · exact absurd hpost hpre
  | complianceArrived c =>
      rw [stepFn] at hpost
      split at hpost
      · simp at hpost
      · exact absurd hpost hpre
  | recrop =>
      rw [stepFn] at hpost
      split at hpost
      · simp at hpost
      · exact absurd hpost hpre
  | paypalLoaded =>
      rw [stepFn] at hpost
      split at hpost
      · rename_i hg
        exact absurd hg hpre
      · exact absurd hpost hpre
  | paypalLoadFailed =>
      rw [stepFn] at hpost
      split at hpost
      · rename_i hg
        exact absurd hg hpre
      · exact absurd hpost hpre
  | paymentResult r =>
      rw [stepFn] at hpost
      split at hpost
      · rename_i hg
        exact absurd hg hpre
      · exact absurd hpost hpre
  | paymentThrew m =>
      rw [stepFn] at hpost
      split at hpost
      · rename_i hg
        exact absurd hg hpre
      · exact absurd hpost hpre
  | startOver =>
      rw [stepFn] at hpost
      simp [reset] at hpost

/-- Witness for C1: an accept fired from a Validate session with both
verdicts passing does enter PAYMENT, and the theorem applies to it. -/
theorem paymentEntryGuarded_witness :
    Event.accept = Event.accept ∧ acceptReadyState.step = AppStep.VALIDATE ∧
      techSizeValid acceptReadyState = true ∧ compliancePassed acceptReadyState = true :=
  paymentEntryGuarded acceptReadyState Event.accept (by decide) (by decide)

/-- C2: completing apply-crop always stores an undefined croppedImage and a
TechnicalResult whose sizeValid is false (the handler destructures dataUrl
and size, fields the object resolved by getCroppedImg does not have, so
fileSizeKb is NaN and the range check fails); consequently, over every run
of the machine, croppedImage stays null or undefined, every stored
sizeValid is false, the step never becomes PAYMENT, and the Accept button,
the Validate screen and the Download screen never render. -/
theorem applyCropDestructuringBug :
    (∀ (s : WState) (r : GetCroppedImgResult),
        (applyCropResolved s r).croppedImage = JsVal.undefV ∧
        techSizeValid (applyCropResolved s r) = false) ∧
    (∀ es : List Event,
        ((run initState es).croppedImage = JsVal.jsNull ∨
          (run initState es).croppedImage = JsVal.undefV) ∧
        techSizeValid (run initState es) = false ∧
        (run initState es).step ≠ AppStep.PAYMENT ∧
        acceptRenders (run initState es) = false ∧
        validateRenders (run initState es) = false ∧
        downloadRenders (run initState es) = false) := by
  refine ⟨applyCropResolved_props, fun es => ?_⟩
  obtain ⟨h1, h2, h3, _, _⟩ := bugInv_run es
  obtain ⟨h4, h5, h6⟩ := renders_false_of_bugInv _ (bugInv_run es)
  exact ⟨h1, h2, h3, h5, h4, h6⟩

/-- C3: the technical validator of handleApplyCrop, on genuine numbers,
has sizeValid true exactly when 250 <= bytes/1024 <= 5120 (inclusive) and
dimensionsValid true exactly when 900 <= width <= 4500 and
1200 <= height <= 6000, with the four boundary cases of the specification:
250*1024 bytes passes, one byte less fails, 900 x 1200 passes, width 899
fails. -/
theorem technicalValidatorSpec :
    (∀ b w h : ℚ,
        ((mkTechResult (.num b) (.num w) (.num h)).sizeValid = true ↔
          250 ≤ b / 1024 ∧ b / 1024 ≤ 5120) ∧
        ((mkTechResult (.num b) (.num w) (.num h)).dimensionsValid = true ↔
          900 ≤ w ∧ w ≤ 4500 ∧ 1200 ≤ h ∧ h ≤ 6000)) ∧
    (mkTechResult (.num (250 * 1024)) (.num 1500) (.num 2000)).sizeValid = true ∧
    (mkTechResult (.num (250 * 1024 - 1)) (.num 1500) (.num 2000)).sizeValid = false ∧
    (mkTechResult (.num 300000) (.num 900) (.num 1200)).dimensionsValid = true ∧
    (mkTechResult (.num 300000) (.num 899) (.num 1200)).dimensionsValid = false := by
  refine ⟨fun b w h => ⟨?_, ?_⟩, ?_, ?_, ?_, ?_⟩
  · simp [mkTechResult, jsGe, jsLe, jsDiv]
  · simp [mkTechResult, jsGe, jsLe, jsDiv, and_assoc]
  · simp [mkTechResult, jsGe, jsLe, jsDiv]; norm_num
  · simp [mkTechResult, jsGe, jsLe, jsDiv]; norm_num
  · simp [mkTechResult, jsGe, jsLe, jsDiv]; norm_num
  · simp [mkTechResult, jsGe, jsLe, jsDiv]; norm_num

/-- Counterexample to C4: press start-over while the compliance request of
apply-crop is in flight (handleApplyCrop captures no cancellation flag); the
reset session is back at UPLOAD with no compliance result, yet the late
result is applied: it sets the compliance result and moves the step to
VALIDATE. -/
theorem complianceNotCancelledCex :
    (run initState resetDuringComplianceTrace).step = AppStep.UPLOAD ∧
    (run initState resetDuringComplianceTrace).compliance = none ∧
    (run initState resetDuringComplianceTrace).pendingCompliance = true ∧
    (run initState lateComplianceTrace).compliance = some failCompliance ∧
    (run initState lateComplianceTrace).step = AppStep.VALIDATE := by decide

/-- C4 as amended: the asynchronous operations of the Payment effect — the
SDK load resolving or failing, and payment capture/verification resolving
or throwing — all drop their late results once the step has left PAYMENT
(the effect cleanup sets its cancellation flag), but the compliance check
dispatched by apply-crop has no cancellation flag: reset leaves the
dispatch pending, and its late result still sets the compliance result and
moves the step to VALIDATE. -/
theorem asyncCancellationAmended :
    (∀ s : WState,
        s.step ≠ AppStep.PAYMENT → stepFn s Event.paypalLoaded = s) ∧
    (∀ s : WState,
        s.step ≠ AppStep.PAYMENT → stepFn s Event.paypalLoadFailed = s) ∧
    (∀ (s : WState) (r : PaymentResult),
        s.step ≠ AppStep.PAYMENT → stepFn s (Event.paymentResult r) = s) ∧
    (∀ (s : WState) (m : Option String),
        s.step ≠ AppStep.PAYMENT → stepFn s (Event.paymentThrew m) = s) ∧
    (∀ (s : WState) (c : ComplianceResult),
        s.pendingCompliance = true →
          (stepFn s (Event.complianceArrived c)).compliance = some c ∧
          (stepFn s (Event.complianceArrived c)).step = AppStep.VALIDATE) ∧
    (∀ s : WState, (reset s).pendingCompliance = s.pendingCompliance) := by
  refine ⟨?_, ?_, ?_, ?_, ?_, fun s => rfl⟩
  · intro s h; rw [stepFn, if_neg h]
  · intro s h; rw [stepFn, if_neg h]
  · intro s r h; rw [stepFn, if_neg h]
  · intro s m h; rw [stepFn, if_neg h]
  · intro s c h; rw [stepFn, if_pos h]; exact ⟨rfl, rfl⟩

/-- Counterexample to C5: on a Validate session holding a stored verdict
pair, the re-crop event moves the step back to CROP but leaves both the
TechnicalResult and the ComplianceResult stored (its handler is only
setStep, src/App.tsx line 397), contradicting the claimed discard. -/
theorem recropKeepsResultsCex :
    (stepFn staleVerdictState Event.recrop).step = AppStep.CROP ∧
    (stepFn staleVerdictState Event.recrop).techResult = some staleTech ∧
    (stepFn staleVerdictState Event.recrop).compliance = some failCompliance := by decide

/-- C5 as amended: re-crop from a rendered Validate screen returns the step
to CROP and leaves the prior TechnicalResult and ComplianceResult stored
unchanged; they are only replaced when a new crop is applied. -/
theorem recropKeepsResults :
    (∀ s : WState, (stepFn s Event.recrop).techResult = s.techResult ∧
        (stepFn s Event.recrop).compliance = s.compliance) ∧
    (∀ s : WState, validateRenders s = true →
        (stepFn s Event.recrop).step = AppStep.CROP) := by
  refine ⟨fun s => ?_, fun s h => ?_⟩
  · rw [stepFn]; split
    · exact ⟨rfl, rfl⟩
    · exact ⟨rfl, rfl⟩
  · rw [stepFn, if_pos h]

/-- Counterexample to C6: after selecting a crop position and rectangle and
pressing start-over, the session is back at UPLOAD but the crop position
and the pending crop rectangle survive (reset never clears crop or
croppedAreaPixels); the stale rectangle even lets apply-crop fire in the
next session before any new crop is reported. -/
theorem startOverLeaksCropCex :
    (run initState cropLeakTrace).step = AppStep.UPLOAD ∧
    (run initState cropLeakTrace).croppedAreaPixels = some ⟨10, 20, 300, 400⟩ ∧
    (run initState cropLeakTrace).cropX = 5 ∧
    (run initState cropLeakTrace).cropY = 7 ∧
    (run initState (cropLeakTrace ++
        [Event.fileSelected "next", Event.applyCrop])).pendingRender = true := by decide

/-- C6 as amended: start-over returns the step to UPLOAD and clears the
image, the cropped output, rotation, zoom, both verdicts and all payment
state, but the crop position, the pending crop rectangle, the loading flag
and the in-flight dispatches survive into the next session. -/
theorem startOverFrame (s : WState) :
    stepFn s Event.startOver =
      { step := AppStep.UPLOAD, image := none, croppedImage := JsVal.jsNull,
        cropX := s.cropX, cropY := s.cropY, zoom := 1, rotation := 0,
        croppedAreaPixels := s.croppedAreaPixels, loading := s.loading,
        compliance := none, techResult := none, paymentVerified := false,
        paypalReady := false, paymentError := none, paymentLoading := false,
        paypalRendered := false, pendingRender := s.pendingRender,
        pendingCompliance := s.pendingCompliance } := rfl

/-- C7: on any failure of the compliance call (non-2xx response or
network/thrown error) checkPassportCompliance returns, instead of throwing,
a ComplianceResult with passed false, score 0, all five category checks set
to the Error marker, and the connection-failure feedback message. -/
theorem complianceFailureFallback :
    (∀ (status : ℕ) (body : Option String),
        checkPassportCompliance (.httpError status body) = errorComplianceResult) ∧
    (∀ msg : String,
        checkPassportCompliance (.networkError msg) = errorComplianceResult) ∧
    errorComplianceResult.passed = false ∧
    errorComplianceResult.score = 0 ∧
    errorComplianceResult.checks.background = "Error" ∧
    errorComplianceResult.checks.headSize = "Error" ∧
    errorComplianceResult.checks.expression = "Error" ∧
    errorComplianceResult.checks.lighting = "Error" ∧
    errorComplianceResult.checks.sharpness = "Error" ∧
    errorComplianceResult.feedback =
      "Failed to connect to AI service for validation. Please try again." :=
  ⟨fun _ _ => rfl, fun _ => rfl, rfl, rfl, rfl, rfl, rfl, rfl, rfl, rfl⟩

/-- C8: for a payment approval handled in the PAYMENT step, verification
with verified=false keeps the session in PAYMENT with the returned error
message stored and paymentVerified untouched; the step becomes DOWNLOAD
exactly when verification returns verified=true. -/
theorem paymentVerificationGate (s : WState) (r : PaymentResult)
    (h : s.step = AppStep.PAYMENT) :
    ((stepFn s (Event.paymentResult r)).step = AppStep.DOWNLOAD ↔ r.verified = true) ∧
    (r.verified = false →
        (stepFn s (Event.paymentResult r)).step = AppStep.PAYMENT ∧
        (stepFn s (Event.paymentResult r)).paymentError =
          some (r.error.getD "Payment verification failed.") ∧
        (stepFn s (Event.paymentResult r)).paymentVerified = s.paymentVerified) ∧
    (r.verified = true →
        (stepFn s (Event.paymentResult r)).step = AppStep.DOWNLOAD ∧
        (stepFn s (Event.paymentResult r)).paymentVerified = true) := by
  cases hv : r.verified with
  | false =>
      have hst : stepFn s (Event.paymentResult r) =
          { s with
              paymentError := some (r.error.getD "Payment verification failed."),
              paymentLoading := false } := by
        rw [stepFn, if_pos h, if_neg ?hcond]
        case hcond => rw [hv]; simp
      rw [hst]
      refine ⟨⟨fun hstep => ?_, fun hc => absurd hc (by simp)⟩,
        fun _ => ⟨h, rfl, rfl⟩, fun hc => absurd hc (by simp)⟩
      have hs2 : s.step = AppStep.DOWNLOAD := hstep
      rw [h] at hs2
      exact absurd hs2 (by decide)
  | true =>
      have hst : stepFn s (Event.paymentResult r) =
          { s with
              paymentVerified := true, step := AppStep.DOWNLOAD,
              paymentError := none, paymentLoading := false } := by
        rw [stepFn, if_pos h, if_pos ?hcond]
        case hcond => rw [hv]
      rw [hst]
      exact ⟨⟨fun _ => rfl, fun _ => rfl⟩, fun hc => absurd hc (by simp),
        fun _ => ⟨rfl, rfl⟩⟩

/-- Witness for C8: the declined-verification scenario ({verified:false,
error:Status DECLINED}) on a session in PAYMENT, through the theorem. -/
theorem paymentVerificationGate_witness :
    ((stepFn payState (Event.paymentResult declinedResult)).step = AppStep.DOWNLOAD ↔
        declinedResult.verified = true) ∧
    (declinedResult.verified = false →
        (stepFn payState (Event.paymentResult declinedResult)).step = AppStep.PAYMENT ∧
        (stepFn payState (Event.paymentResult declinedResult)).paymentError =
          some (declinedResult.error.getD "Payment verification failed.") ∧
        (stepFn payState (Event.paymentResult declinedResult)).paymentVerified =
          payState.paymentVerified) ∧
    (declinedResult.verified = true →
        (stepFn payState (Event.paymentResult declinedResult)).step = AppStep.DOWNLOAD ∧
        (stepFn payState (Event.paymentResult declinedResult)).paymentVerified = true) :=
  paymentVerificationGate payState declinedResult rfl

/-- C9: for every crop rectangle with positive width and height lying fully
inside the source bounds and every rotation in [-180, 180], the output
raster reported by getCroppedImg has width exactly 1500 and height exactly
2000 (the canvas is fixed to the target dimensions regardless of input). -/
theorem renderedOutputDims (enc : Encoder) (imageSrc : String) (pixelCrop : Area)
    (rotation : ℚ) (srcW srcH : ℚ)
    (_hw : 0 < pixelCrop.width) (_hh : 0 < pixelCrop.height)
    (_hx : 0 ≤ pixelCrop.x) (_hy : 0 ≤ pixelCrop.y)
    (_hxw : pixelCrop.x + pixelCrop.width ≤ srcW)
    (_hyh : pixelCrop.y + pixelCrop.height ≤ srcH)
    (_hlo : -180 ≤ rotation) (_hhi : rotation ≤ 180) :
    (getCroppedImg enc imageSrc pixelCrop rotation).width = 1500 ∧
    (getCroppedImg enc imageSrc pixelCrop rotation).height = 2000 :=
  ⟨rfl, rfl⟩

/-- Witness for C9: the 2000 x 2667 source with crop rectangle
{x:100, y:100, width:1500, height:2000} and rotation 0, through the
theorem. -/
theorem renderedOutputDims_witness :
    (getCroppedImg idEncoder "img" ⟨100, 100, 1500, 2000⟩ 0).width = 1500 ∧
    (getCroppedImg idEncoder "img" ⟨100, 100, 1500, 2000⟩ 0).height = 2000 :=
  renderedOutputDims idEncoder "img" ⟨100, 100, 1500, 2000⟩ 0 2000 2667
    (show (0:ℚ) < 1500 by norm_num) (show (0:ℚ) < 2000 by norm_num)
    (show (0:ℚ) ≤ 100 by norm_num) (show (0:ℚ) ≤ 100 by norm_num)
    (show (100:ℚ) + 1500 ≤ 2000 by norm_num)
    (show (100:ℚ) + 2000 ≤ 2667 by norm_num)
    (show (-180:ℚ) ≤ 0 by norm_num) (show (0:ℚ) ≤ 180 by norm_num)

end NZP
